import Mathlib

/-
Shallow embedding of the Monte Carlo option pricers of the repository
(pricer_vanilla.py, pricer_tunnel.py, pricer_napoleon.py, pricer_himalaya.py).

Floating point numbers of the source are modelled by real numbers; the
independent standard-normal draws consumed by `np.random.normal(0, 1)` are
modelled by an explicit input stream `Z` (one draw per simulation step, one
stream per trial).  Python lists are Lean lists, and the loops of the source
that append to a list become `List.foldl` over the same index ranges.
-/

noncomputable section

namespace Pricers

/-- Arithmetic mean as computed by `np.mean`: sum of the list divided by its
length (`np.mean` of an empty list is not used by any claim; here it is 0/0 = 0). -/
def np_mean (l : List ℝ) : ℝ := l.sum / l.length

/-- Standard deviation as computed by `np.std` (default `ddof = 0`): the square
root of the mean of the squared deviations from the mean, with divisor equal to
the sample size. -/
def np_std (l : List ℝ) : ℝ :=
  Real.sqrt ((l.map (fun x => (x - np_mean l) ^ 2)).sum / l.length)

/-- Offsets of `np.arange start stop step` for a positive step: the number of
points is the ceiling of (stop - start) / step, and point `i` is
`start + i * step`. -/
def np_arange (start stop step : ℝ) : List ℝ :=
  (List.range (Int.ceil ((stop - start) / step)).toNat).map
    (fun i : ℕ => start + (i : ℝ) * step)

/-- Minimum of a list, as Python's `min` on a nonempty list (the sources only
apply it to nonempty groups). -/
def listMin (l : List ℝ) : ℝ := l.foldl min (l.headD 0)

/-- Maximum over all entries of a list, as `np.max` on a nonempty array. -/
def listMax (l : List ℝ) : ℝ := l.foldl max (l.headD 0)

/-- One log-Euler step of the Geometric Brownian Motion discretisation used by
all the pricers: `s * exp((mu - sigma^2/2) * dt + sigma * sqrt(dt) * z)`. -/
def gbmStep (volatility drift s dt z : ℝ) : ℝ :=
  s * Real.exp ((drift - volatility ^ 2 / 2) * dt + volatility * Real.sqrt dt * z)

/-- `McSimul.simulate_gbm` (pricer_vanilla.py, lines 41-54).  The same loop,
textually identical, is `NapoleonOptionPricer.simulate_geometric_brownian_motion`
(pricer_napoleon.py, lines 49-63) and `TunnelOptionPricer.simulate_gbm`
(pricer_tunnel.py, lines 42-47): start from `[S0]` and, for `i` in
`range(1, len(t))`, append the GBM step of the last element with
`dt = t[i] - t[i-1]` and a fresh draw `Z i`. -/
def simulate_gbm (S0 volatility drift : ℝ) (t : List ℝ) (Z : ℕ → ℝ) : List ℝ :=
  (List.range' 1 (t.length - 1)).foldl
    (fun S i =>
      S ++ [gbmStep volatility drift (S.getLastD 0) (t.getD i 0 - t.getD (i - 1) 0) (Z i)])
    [S0]

/-- The convergence loop shared, textually identical, by the four source
classes (`McSimul.perform_monte_carlo`, `NapoleonOptionPricer.monte_carlo_convergence`,
`TunnelOptionPricer.convergence_mc`, `HimalayaOptionPricer.monte_carlo_convergence`).
`a` stands for the value `norm.ppf(confidence_interval)`, used exactly as the
source uses it.  For `i` in `range(len(P))` the loop appends the running mean of
`P[:i+1]`, its `np.std`, and the bounds `mean ∓ a * std / sqrt(i)` (the mean
itself when `i = 0`).  Returns `(moving_average, standard_deviation,
lower_bound, upper_bound)`. -/
def convergence_loop (a : ℝ) (P : List ℝ) : List ℝ × List ℝ × List ℝ × List ℝ :=
  (List.range P.length).foldl
    (fun st i =>
      (st.1 ++ [np_mean (P.take (i + 1))],
       st.2.1 ++ [np_std (P.take (i + 1))],
       st.2.2.1 ++
         [if 0 < i then
            np_mean (P.take (i + 1)) - a * np_std (P.take (i + 1)) / Real.sqrt i
          else np_mean (P.take (i + 1))],
       st.2.2.2 ++
         [if 0 < i then
            np_mean (P.take (i + 1)) + a * np_std (P.take (i + 1)) / Real.sqrt i
          else np_mean (P.take (i + 1))]))
    ([], [], [], [])

/-- `McSimul.perform_monte_carlo` (pricer_vanilla.py, lines 80-98): the loop
above, returning `(moving_average, lower_bound, upper_bound)`. -/
def perform_monte_carlo (a : ℝ) (P : List ℝ) : List ℝ × List ℝ × List ℝ :=
  ((convergence_loop a P).1, (convergence_loop a P).2.2.1, (convergence_loop a P).2.2.2)

namespace Vanilla

/-- `McSimul.generate_time_vector` (pricer_vanilla.py, lines 31-39):
`np.arange(0, 60/252, 1/252)` concatenated with
`np.arange(maturity - 59/252, maturity, 1/252)`. -/
def generate_time_vector (maturity : ℝ) : List ℝ :=
  np_arange 0 (60 / 252) (1 / 252) ++ np_arange (maturity - 59 / 252) maturity (1 / 252)

/-- `McSimul.calculate_payoff` (pricer_vanilla.py, lines 56-65):
`np.max([np.mean(S[61:]) / np.mean(S[:60]) - strike, 0])`. -/
def calculate_payoff (strike : ℝ) (S : List ℝ) : ℝ :=
  max (np_mean (S.drop 61) / np_mean (S.take 60) - strike) 0

/-- `McSimul.simulate_monte_carlo` (pricer_vanilla.py, lines 67-78): build the
time grid once, then for each of `int(num_simulations)` trials simulate a path
(trial `k` consumes the draw stream `Z k`) and append its payoff. -/
def simulate_monte_carlo (S0 strike volatility drift maturity : ℝ) (Ns : ℤ)
    (Z : ℕ → ℕ → ℝ) : List ℝ :=
  (List.range Ns.toNat).map (fun k =>
    calculate_payoff strike (simulate_gbm S0 volatility drift (generate_time_vector maturity) (Z k)))

end Vanilla

namespace Tunnel

/-- `TunnelOptionPricer.generate_t` (pricer_tunnel.py, lines 38-40):
`np.arange(0, maturity, 1/4)`. -/
def generate_t (maturity : ℝ) : List ℝ := np_arange 0 maturity (1 / 4)

/-- `TunnelOptionPricer.payoff` (pricer_tunnel.py, lines 49-58).  `K0 = K[0]`
and `K1 = K[1]`.  Walk the interior observations `S[1:len(S)-1]`: inside the
corridor add `v/S0 * alpha`, above it add `v/S0 * beta`, otherwise reset the
accumulated total to zero; finally add `max(S[-1]/S0 - K1, 0)`. -/
def payoff (S0 K0 K1 alpha beta : ℝ) (S : List ℝ) : ℝ :=
  ((S.take (S.length - 1)).drop 1).foldl
    (fun p v =>
      if K0 < v ∧ v < K1 then p + v / S0 * alpha
      else if K1 < v then p + v / S0 * beta
      else 0)
    0
  + max (S.getLastD 0 / S0 - K1) 0

/-- `TunnelOptionPricer.simulate_monte_carlo` (pricer_tunnel.py, lines 60-66). -/
def simulate_monte_carlo (S0 K0 K1 alpha beta volatility drift maturity : ℝ) (Ns : ℤ)
    (Z : ℕ → ℕ → ℝ) : List ℝ :=
  (List.range Ns.toNat).map (fun k =>
    payoff S0 K0 K1 alpha beta (simulate_gbm S0 volatility drift (generate_t maturity) (Z k)))

end Tunnel

namespace Napoleon

/-- Monthly returns of `NapoleonOptionPricer.calculate_option_payoff`
(pricer_napoleon.py, line 78): `[S[j]/S[j-1] - 1 for j in range(1, len(S))]`. -/
def monthly_returns (S : List ℝ) : List ℝ :=
  (List.range (S.length - 1)).map (fun j => S.getD (j + 1) 0 / S.getD j 0 - 1)

/-- Fuel-indexed chunking; `chunksAux fuel l` cuts `l` into successive groups of
at most 12 as long as fuel remains.  With `fuel = l.length` this is exactly
`[l[i:i+12] for i in range(0, len(l), 12)]` (line 79 of pricer_napoleon.py). -/
def chunksAux : ℕ → List ℝ → List (List ℝ)
  | 0, _ => []
  | _ + 1, [] => []
  | n + 1, x :: xs => (x :: xs).take 12 :: chunksAux n ((x :: xs).drop 12)

/-- `monthly_returns_grouped` of the source: the returns cut into consecutive
groups of 12 (the last group may be shorter). -/
def grouped (l : List ℝ) : List (List ℝ) := chunksAux l.length l

/-- The guard `min(returns_group) if returns_group else 0` of line 82 of
pricer_napoleon.py. -/
def minOrZero : List ℝ → ℝ
  | [] => 0
  | g => listMin g

/-- `NapoleonOptionPricer.calculate_option_payoff` (pricer_napoleon.py, lines
65-85).  The outer loop `for i in range(int(len(S)/12))` adds, on EVERY
iteration, the whole sum over all return groups of
`max(fixed_coupon + min(group), floor)` (the inner `for j in range(12)` loop
only recomputes `monthly_returns_grouped` and has no other effect). -/
def calculate_option_payoff (fixed_coupon floor : ℝ) (S : List ℝ) : ℝ :=
  (List.range (S.length / 12)).foldl
    (fun p _ =>
      p + ((grouped (monthly_returns S)).map
        (fun g => max (fixed_coupon + minOrZero g) floor)).sum)
    0

end Napoleon

namespace Himalaya

/-- `HimalayaOptionPricer.generate_time_vector` (pricer_himalaya.py, lines
47-53): `[i for i in range(self.num_assets)]`. -/
def generate_time_vector (num_assets : ℕ) : List ℝ :=
  (List.range num_assets).map (fun i : ℕ => (i : ℝ))

/-- `HimalayaOptionPricer.simulate_trajectory` (pricer_himalaya.py, lines
55-71): one log-price trajectory per asset, starting from `log(S0_i)` and
adding `(mean - sigma^2/2) * dt + sigma * sqrt(dt) * Z` per step. -/
def simulate_trajectory (initial_asset_values : List ℝ) (volatility mean : ℝ)
    (t : List ℝ) (Z : ℕ → ℕ → ℝ) : List (List ℝ) :=
  (List.range initial_asset_values.length).map (fun i =>
    (List.range' 1 (t.length - 1)).foldl
      (fun traj j =>
        traj ++ [traj.getLastD 0
          + (mean - volatility ^ 2 / 2) * (t.getD j 0 - t.getD (j - 1) 0)
          + volatility * Real.sqrt (t.getD j 0 - t.getD (j - 1) 0) * Z i j])
      [Real.log (initial_asset_values.getD i 0)])

/-- `HimalayaOptionPricer.calculate_payoff` (pricer_himalaya.py, lines 73-84).
It receives the LIST of per-asset log-trajectories, exponentiates every entry,
takes `np.max` over all entries of all trajectories, and returns
`np.max(max_payoff - strike, 0)`.  In that last call `0` is the AXIS argument
of `np.max`, not a second value to compare with: on the scalar
`max_payoff - strike` it returns the scalar itself, so the result is NOT
floored at zero. -/
def calculate_payoff (strike : ℝ) (trajectories : List (List ℝ)) : ℝ :=
  listMax ((trajectories.map (fun tr => tr.map Real.exp)).flatten) - strike

end Himalaya

/-- Spec-side definition, following the words of the specification for the
Napoleon payoff (spec section 4.3): "for each block, payoff contribution =
max(fixedCoupon + min(block), floor); total payoff = sum of contributions over
all blocks" - each block contributing exactly once. -/
def napoleonPayoffSpec (fixed_coupon floor : ℝ) (S : List ℝ) : ℝ :=
  ((Napoleon.grouped (Napoleon.monthly_returns S)).map
    (fun g => max (fixed_coupon + Napoleon.minOrZero g) floor)).sum

/-- Spec-side definition, following the words of the specification for the
Vanilla time grid (spec section 4.1): daily offsets for the first 60 trading
days, and daily offsets for the final 60 trading days ending AT maturity. -/
def vanillaGridSpec (maturity : ℝ) : List ℝ :=
  (List.range 60).map (fun i : ℕ => (i : ℝ) / 252)
    ++ (List.range 60).map (fun i : ℕ => maturity - (59 - (i : ℝ)) / 252)

/-- Spec-side definition, following the words of the specification for the
Vanilla payoff (spec section 4.3): `avgLate` is the arithmetic mean of the LAST
60 observations, `avgEarly` the mean of the first 60. -/
def vanillaPayoffSpec (strike : ℝ) (S : List ℝ) : ℝ :=
  max (np_mean (S.drop (S.length - 60)) / np_mean (S.take 60) - strike) 0

/- ------------------------------------------------------------------ -/
/- Helper lemmas -/
/- ------------------------------------------------------------------ -/

/-- A fold that only appends one value per index is the map over those indices. -/
lemma foldl_push4 (f1 f2 f3 f4 : ℕ → ℝ) (l : List ℕ) (i1 i2 i3 i4 : List ℝ) :
    l.foldl
      (fun st i => (st.1 ++ [f1 i], st.2.1 ++ [f2 i], st.2.2.1 ++ [f3 i], st.2.2.2 ++ [f4 i]))
      (i1, i2, i3, i4)
      = (i1 ++ l.map f1, i2 ++ l.map f2, i3 ++ l.map f3, i4 ++ l.map f4) := by
  induction l generalizing i1 i2 i3 i4 with
  | nil => simp
  | cons x xs ih => simp [List.foldl_cons, ih]

/-- Appending one element per step adds the step count to the length. -/
lemma foldl_snoc_length {β : Type} (g : List ℝ → β → ℝ) (l : List β) (init : List ℝ) :
    (l.foldl (fun S i => S ++ [g S i]) init).length = init.length + l.length := by
  induction l generalizing init with
  | nil => simp
  | cons x xs ih => rw [List.foldl_cons, ih]; simp; omega

/-- Appending elements never changes the head of a nonempty accumulator. -/
lemma foldl_snoc_head {β : Type} (g : List ℝ → β → ℝ) (l : List β) (init : List ℝ)
    (h : init ≠ []) :
    (l.foldl (fun S i => S ++ [g S i]) init).head? = init.head? := by
  induction l generalizing init with
  | nil => rfl
  | cons x xs ih =>
    rw [List.foldl_cons, ih _ (by simp)]
    cases init with
    | nil => exact absurd rfl h
    | cons y ys => simp

/-- An element of the `getD`-view of a replicate. -/
lemma getD_replicate (n i : ℕ) (x : ℝ) (h : i < n) : (List.replicate n x).getD i 0 = x := by
  rw [List.getD_eq_getElem _ _ (by simpa using h)]
  simp

/-- An element of the `getD`-view of a mapped range. -/
lemma getD_map_range (f : ℕ → ℝ) (n i : ℕ) (h : i < n) :
    ((List.range n).map f).getD i 0 = f i := by
  rw [List.getD_eq_getElem _ _ (by simpa using h)]
  simp

/-- Folding `min` over copies of the start value returns the start value. -/
lemma foldl_min_replicate (n : ℕ) (x : ℝ) : (List.replicate n x).foldl min x = x := by
  induction n with
  | zero => rfl
  | succ m ih => rw [List.replicate_succ, List.foldl_cons, min_self]; exact ih

/-- Python's min of a nonempty constant group is that constant. -/
lemma listMin_replicate (n : ℕ) (x : ℝ) (h : n ≠ 0) : listMin (List.replicate n x) = x := by
  obtain ⟨m, rfl⟩ := Nat.exists_eq_succ_of_ne_zero h
  rw [listMin, List.replicate_succ, List.headD_cons, List.foldl_cons, min_self]
  exact foldl_min_replicate m x

/-- Mean of a nonempty constant sample is that constant. -/
lemma np_mean_replicate (n : ℕ) (x : ℝ) (h : n ≠ 0) : np_mean (List.replicate n x) = x := by
  rw [np_mean, List.sum_replicate, List.length_replicate, nsmul_eq_mul]
  exact mul_div_cancel_left₀ x (Nat.cast_ne_zero.2 h)

/-- Standard deviation of a nonempty constant sample is zero. -/
lemma np_std_replicate (n : ℕ) (x : ℝ) (h : n ≠ 0) : np_std (List.replicate n x) = 0 := by
  rw [np_std, List.map_replicate, np_mean_replicate n x h]
  simp

/-- The closed form of the convergence loop: each of the four lists is the map
of its per-index formula over `range (len P)`. -/
lemma convergence_loop_eq (a : ℝ) (P : List ℝ) :
    convergence_loop a P =
      ((List.range P.length).map (fun i => np_mean (P.take (i + 1))),
       (List.range P.length).map (fun i => np_std (P.take (i + 1))),
       (List.range P.length).map (fun i =>
         if 0 < i then np_mean (P.take (i + 1)) - a * np_std (P.take (i + 1)) / Real.sqrt i
         else np_mean (P.take (i + 1))),
       (List.range P.length).map (fun i =>
         if 0 < i then np_mean (P.take (i + 1)) + a * np_std (P.take (i + 1)) / Real.sqrt i
         else np_mean (P.take (i + 1)))) := by
  rw [convergence_loop, foldl_push4]
  simp

/-- First component of `perform_monte_carlo` in closed form. -/
lemma perform_fst (a : ℝ) (P : List ℝ) :
    (perform_monte_carlo a P).1
      = (List.range P.length).map (fun i => np_mean (P.take (i + 1))) := by
  rw [perform_monte_carlo, convergence_loop_eq]

/-- Lower-bound component of `perform_monte_carlo` in closed form. -/
lemma perform_lb (a : ℝ) (P : List ℝ) :
    (perform_monte_carlo a P).2.1
      = (List.range P.length).map (fun i =>
          if 0 < i then np_mean (P.take (i + 1)) - a * np_std (P.take (i + 1)) / Real.sqrt i
          else np_mean (P.take (i + 1))) := by
  rw [perform_monte_carlo, convergence_loop_eq]

/-- Upper-bound component of `perform_monte_carlo` in closed form. -/
lemma perform_ub (a : ℝ) (P : List ℝ) :
    (perform_monte_carlo a P).2.2
      = (List.range P.length).map (fun i =>
          if 0 < i then np_mean (P.take (i + 1)) + a * np_std (P.take (i + 1)) / Real.sqrt i
          else np_mean (P.take (i + 1))) := by
  rw [perform_monte_carlo, convergence_loop_eq]

/-- Mean component of the convergence loop in closed form. -/
lemma conv_fst (a : ℝ) (P : List ℝ) :
    (convergence_loop a P).1
      = (List.range P.length).map (fun i => np_mean (P.take (i + 1))) := by
  rw [convergence_loop_eq]

/-- Standard-deviation component of the convergence loop in closed form. -/
lemma conv_std (a : ℝ) (P : List ℝ) :
    (convergence_loop a P).2.1
      = (List.range P.length).map (fun i => np_std (P.take (i + 1))) := by
  rw [convergence_loop_eq]

/-- Lower-bound component of the convergence loop in closed form. -/
lemma conv_lb (a : ℝ) (P : List ℝ) :
    (convergence_loop a P).2.2.1
      = (List.range P.length).map (fun i =>
          if 0 < i then np_mean (P.take (i + 1)) - a * np_std (P.take (i + 1)) / Real.sqrt i
          else np_mean (P.take (i + 1))) := by
  rw [convergence_loop_eq]

/-- Upper-bound component of the convergence loop in closed form. -/
lemma conv_ub (a : ℝ) (P : List ℝ) :
    (convergence_loop a P).2.2.2
      = (List.range P.length).map (fun i =>
          if 0 < i then np_mean (P.take (i + 1)) + a * np_std (P.take (i + 1)) / Real.sqrt i
          else np_mean (P.take (i + 1))) := by
  rw [convergence_loop_eq]

/-- `np.std` is a square root, hence nonnegative. -/
lemma np_std_nonneg (l : List ℝ) : 0 ≤ np_std l := Real.sqrt_nonneg _

/-- Last element of a nonempty constant list. -/
lemma getLastD_replicate (m : ℕ) (x : ℝ) : (List.replicate (m + 1) x).getLastD 0 = x := by
  rw [List.replicate_succ']
  simp

/-- A snoc-fold whose appended value is always the constant of the accumulator
turns a constant list into a longer constant list. -/
lemma foldl_snoc_getLastD_const {β : Type} (g : List ℝ → β → ℝ) (x : ℝ)
    (hg : ∀ (m : ℕ) (i : β), g (List.replicate (m + 1) x) i = x) :
    ∀ (l : List β) (k : ℕ), k ≠ 0 →
      l.foldl (fun S i => S ++ [g S i]) (List.replicate k x)
        = List.replicate (k + l.length) x := by
  intro l
  induction l with
  | nil => intro k _; simp
  | cons y ys ih =>
    intro k hk
    obtain ⟨m, rfl⟩ := Nat.exists_eq_succ_of_ne_zero hk
    rw [List.foldl_cons, hg m y, ← List.replicate_succ', ih (m + 2) (by omega)]
    simp only [List.length_cons]
    congr 1
    omega

/-- With zero volatility and zero drift every simulated path is constant at the
initial price. -/
lemma simulate_gbm_zero (S0 : ℝ) (t : List ℝ) (Z : ℕ → ℝ) :
    simulate_gbm S0 0 0 t Z = List.replicate (max t.length 1) S0 := by
  have hg : ∀ (m : ℕ) (i : ℕ),
      gbmStep 0 0 ((List.replicate (m + 1) S0).getLastD 0)
        (t.getD i 0 - t.getD (i - 1) 0) (Z i) = S0 := by
    intro m i
    rw [getLastD_replicate, gbmStep]
    norm_num
  rw [simulate_gbm, show [S0] = List.replicate 1 S0 from rfl,
    foldl_snoc_getLastD_const _ S0 hg _ 1 one_ne_zero]
  congr 1
  simp only [List.length_range']
  omega

/-- The Vanilla grid always has 60 + 59 = 119 points, for every maturity. -/
lemma vanilla_grid_length (T : ℝ) : (Vanilla.generate_time_vector T).length = 119 := by
  rw [Vanilla.generate_time_vector, np_arange, np_arange, List.length_append,
    List.length_map, List.length_map, List.length_range, List.length_range,
    show ((60 : ℝ) / 252 - 0) / (1 / 252) = ((60 : ℕ) : ℝ) by norm_num,
    show (T - (T - 59 / 252)) / (1 / 252) = ((59 : ℕ) : ℝ) by push_cast; ring_nf,
    Int.ceil_natCast, Int.ceil_natCast]
  rfl

/-- The Vanilla payoff of the constant-100 trajectory with strike 0 is 1:
both window means are 100, so the ratio is 1 and `max (1 - 0) 0 = 1`. -/
lemma vanilla_payoff_const :
    Vanilla.calculate_payoff 0 (List.replicate 119 (100 : ℝ)) = 1 := by
  rw [Vanilla.calculate_payoff, List.drop_replicate, List.take_replicate,
    show (119 : ℕ) - 61 = 58 by norm_num, show min 60 119 = 60 by norm_num,
    np_mean_replicate 58 100 (by norm_num), np_mean_replicate 60 100 (by norm_num)]
  norm_num

/- ------------------------------------------------------------------ -/
/- Claims -/
/- ------------------------------------------------------------------ -/

/-- C10: for every time grid, including the empty grid, the path simulator
returns a path whose first element is the initial price and whose length is
`max (len grid) 1`; in particular a one-element path `[S0]` results from a grid
with zero or one points, and the path length equals the grid length exactly
when the grid is nonempty. -/
theorem C10_simulate_gbm_shape (S0 volatility drift : ℝ) (t : List ℝ) (Z : ℕ → ℝ) :
    (simulate_gbm S0 volatility drift t Z).head? = some S0 ∧
    (simulate_gbm S0 volatility drift t Z).length = max t.length 1 := by
  constructor
  · rw [simulate_gbm, foldl_snoc_head _ _ _ (by simp)]
    rfl
  · rw [simulate_gbm, foldl_snoc_length]
    simp only [List.length_cons, List.length_nil, List.length_range']
    omega

/-- C6: with `alphaRate = betaRate = 0` the Tunnel payoff of every (nonempty)
trajectory is exactly `max (S_final / S0 - upperStrike) 0`, whatever the
interior observations are: the corridor accumulation contributes nothing. -/
theorem C6_tunnel_zero_rates (S0 K0 K1 : ℝ) (S : List ℝ) (h : S ≠ []) :
    Tunnel.payoff S0 K0 K1 0 0 S = max (S.getLast h / S0 - K1) 0 := by
  rw [Tunnel.payoff]
  have hfold : ∀ (l : List ℝ),
      l.foldl
        (fun p v =>
          if K0 < v ∧ v < K1 then p + v / S0 * 0
          else if K1 < v then p + v / S0 * 0
          else 0)
        0 = 0 := by
    intro l
    induction l with
    | nil => rfl
    | cons x xs ih =>
      rw [List.foldl_cons]
      have hx : (if K0 < x ∧ x < K1 then 0 + x / S0 * 0
          else if K1 < x then 0 + x / S0 * 0 else 0) = (0 : ℝ) := by
        split_ifs <;> ring
      rw [hx]
      exact ih
  rw [hfold, zero_add, List.getLastD_eq_getLast?, List.getLast?_eq_getLast S h]
  rfl

/-- C3 counterexample: with a negative corridor rate `alphaRate = -1` the
Tunnel payoff of the path `[1, 3/2, 2]` (with `S0 = 1`, `lowerStrike = 1`,
`upperStrike = 2`, `betaRate = 0`) is `-3/2 < 0`: not every payoff sample is
nonnegative. -/
theorem C3_counterexample : Tunnel.payoff 1 1 2 (-1) 0 [(1 : ℝ), 3 / 2, 2] < 0 := by
  have h1 : (([(1 : ℝ), 3 / 2, 2].take ([(1 : ℝ), 3 / 2, 2].length - 1)).drop 1)
      = [(3 / 2 : ℝ)] := rfl
  have h2 : ([(1 : ℝ), 3 / 2, 2].getLastD 0) = 2 := rfl
  rw [Tunnel.payoff, h1, h2, List.foldl_cons, List.foldl_nil,
    if_pos (by norm_num : (1 : ℝ) < 3 / 2 ∧ (3 / 2 : ℝ) < 2)]
  norm_num

/-- C3 amended: the Vanilla payoff is always nonnegative, and the Tunnel payoff
is nonnegative whenever both rates are nonnegative, the initial price is
positive and all path values are nonnegative (the Himalaya payoff, which is not
floored at zero, and the Tunnel payoff with a negative rate can be negative). -/
theorem C3_payoff_nonneg (strike S0 K0 K1 alpha beta : ℝ) (S T : List ℝ)
    (ha : 0 ≤ alpha) (hb : 0 ≤ beta) (hS0 : 0 < S0) (hT : ∀ v ∈ T, 0 ≤ v) :
    0 ≤ Vanilla.calculate_payoff strike S ∧ 0 ≤ Tunnel.payoff S0 K0 K1 alpha beta T := by
  refine ⟨le_max_right _ _, ?_⟩
  rw [Tunnel.payoff]
  have hmem : ∀ v ∈ (T.take (T.length - 1)).drop 1, 0 ≤ v := fun v hv =>
    hT v (List.take_subset _ _ (List.mem_of_mem_drop hv))
  have key : ∀ (l : List ℝ), (∀ v ∈ l, 0 ≤ v) → ∀ p : ℝ, 0 ≤ p →
      0 ≤ l.foldl
        (fun p v =>
          if K0 < v ∧ v < K1 then p + v / S0 * alpha
          else if K1 < v then p + v / S0 * beta
          else 0)
        p := by
    intro l
    induction l with
    | nil => exact fun _ p hp => hp
    | cons x xs ih =>
      intro hl p hp
      rw [List.foldl_cons]
      refine ih (fun v hv => hl v (List.mem_cons_of_mem x hv)) _ ?_
      have hx : 0 ≤ x := hl x (List.mem_cons_self x xs)
      split_ifs
      · exact add_nonneg hp (mul_nonneg (div_nonneg hx hS0.le) ha)
      · exact add_nonneg hp (mul_nonneg (div_nonneg hx hS0.le) hb)
      · exact le_refl 0
  exact add_nonneg (key _ hmem 0 le_rfl) (le_max_right _ _)

/-- C3 witness: at concrete nonnegative rates and a positive initial price the
amended nonnegativity theorem applies. -/
theorem C3_payoff_nonneg_witness :
    ((0 : ℝ) ≤ 0 ∧ (0 : ℝ) ≤ 0 ∧ (0 : ℝ) < 1 ∧ (∀ v ∈ [(1 : ℝ)], 0 ≤ v)) ∧
    (0 ≤ Vanilla.calculate_payoff 0 [(1 : ℝ)] ∧ 0 ≤ Tunnel.payoff 1 0 1 0 0 [(1 : ℝ)]) :=
  ⟨⟨le_rfl, le_rfl, by norm_num, by simp⟩,
    C3_payoff_nonneg 0 1 0 1 0 0 [(1 : ℝ)] [(1 : ℝ)] le_rfl le_rfl (by norm_num) (by simp)⟩

/-- C9 counterexample: with invalid inputs (reversed Tunnel strikes
`lowerStrike = 2 ≥ upperStrike = 1` AND negative volatility `-1`) the engine
raises nothing and produces a payoff series with 3 entries: simulation trials
do execute and results are produced. -/
theorem C9_counterexample :
    (Tunnel.simulate_monte_carlo 1 2 1 0 0 (-1) 0 1 3 (fun _ _ => 0)).length = 3 := by
  rw [Tunnel.simulate_monte_carlo]
  simp

/-- C9 amended: no input validation exists anywhere in the sources; for every
parameter assignment, valid or invalid (negative volatility, reversed strikes,
non-positive initial price, any confidence level), the run never fails and
appends exactly `max(numSimulations, 0)` payoff samples. -/
theorem C9_engine_always_runs (S0 strike volatility drift maturity K0 K1 alpha beta : ℝ)
    (Ns : ℤ) (Z : ℕ → ℕ → ℝ) :
    (Vanilla.simulate_monte_carlo S0 strike volatility drift maturity Ns Z).length = Ns.toNat ∧
    (Tunnel.simulate_monte_carlo S0 K0 K1 alpha beta volatility drift maturity Ns Z).length
      = Ns.toNat := by
  constructor <;> simp [Vanilla.simulate_monte_carlo, Tunnel.simulate_monte_carlo]

/-- C6 witness: at `S0 = 1`, `K0 = -1`, `K1 = 0` and the trajectory `[1, 2]`,
the hypothesis holds and the payoff equals the terminal term. -/
theorem C6_witness :
    ([(1 : ℝ), 2] ≠ [] ∧
      Tunnel.payoff 1 (-1) 0 0 0 [(1 : ℝ), 2]
        = max (List.getLast [(1 : ℝ), 2] (by simp) / 1 - 0) 0) :=
  ⟨by simp, C6_tunnel_zero_rates 1 (-1) 0 [(1 : ℝ), 2] (by simp)⟩

/-- C2: at `numAssets = 1`, `initialAssetValues = [1]`, `strike = 2` the
Himalaya grid is the single point `[0]`, the trajectory set is `[[log 1]]`,
and the payoff is `-1`, not `max(S0 - strike, 0) = 0`: the final `np.max(x, 0)`
of the source passes 0 as the axis argument, so the payoff is not floored at
zero (and the inner maximum ranges over every grid step of every asset, not
only the final step). -/
theorem C2_himalaya_not_floored (volatility mean : ℝ) (Z : ℕ → ℕ → ℝ) :
    Himalaya.generate_time_vector 1 = [0] ∧
    Himalaya.simulate_trajectory [1] volatility mean (Himalaya.generate_time_vector 1) Z
      = [[Real.log 1]] ∧
    Himalaya.calculate_payoff 2
      (Himalaya.simulate_trajectory [1] volatility mean (Himalaya.generate_time_vector 1) Z)
      = -1 := by
  have hg : Himalaya.generate_time_vector 1 = [(0 : ℝ)] := by
    rw [Himalaya.generate_time_vector]
    simp [show List.range 1 = [0] from rfl]
  have hs : Himalaya.simulate_trajectory [1] volatility mean [(0 : ℝ)] Z
      = [[Real.log 1]] := by
    rw [Himalaya.simulate_trajectory]
    simp [show List.range 1 = [0] from rfl]
  refine ⟨hg, by rw [hg, hs], ?_⟩
  rw [hg, hs, Himalaya.calculate_payoff]
  simp [listMax, Real.log_one, Real.exp_zero]
  norm_num

/-- C4 counterexample: on the constant-100 Scenario-A trajectory with strike 0
the Vanilla payoff is 1 (the payoff is a window-average RATIO minus the strike,
so a zero strike yields 1), not 0 as the claim states. -/
theorem C4_counterexample :
    Vanilla.calculate_payoff 0 (List.replicate 119 (100 : ℝ)) = 1 ∧
    Vanilla.calculate_payoff 0 (List.replicate 119 (100 : ℝ)) ≠ 0 :=
  ⟨vanilla_payoff_const, by rw [vanilla_payoff_const]; norm_num⟩

/-- C4 amended: in Scenario A (S0 = 100, strike = 0, volatility = 0,
drift = 0, maturity = 1, 10 simulations) every simulated path is constant at
100, every trial's payoff equals 1 (not 0), the running-mean series is all
ones (not all zeros), and the final error upperBound - lowerBound is 0,
whatever quantile value `a` and noise `Z` are used. -/
theorem C4_scenario_A (a : ℝ) (Z : ℕ → ℕ → ℝ) :
    (∀ k, simulate_gbm 100 0 0 (Vanilla.generate_time_vector 1) (Z k)
        = List.replicate 119 100) ∧
    Vanilla.simulate_monte_carlo 100 0 0 0 1 10 Z = List.replicate 10 1 ∧
    (perform_monte_carlo a (Vanilla.simulate_monte_carlo 100 0 0 0 1 10 Z)).1
      = List.replicate 10 1 ∧
    (perform_monte_carlo a (Vanilla.simulate_monte_carlo 100 0 0 0 1 10 Z)).2.2.getD 9 0
      - (perform_monte_carlo a (Vanilla.simulate_monte_carlo 100 0 0 0 1 10 Z)).2.1.getD 9 0
      = 0 := by
  have hpath : ∀ k, simulate_gbm 100 0 0 (Vanilla.generate_time_vector 1) (Z k)
      = List.replicate 119 (100 : ℝ) := by
    intro k
    rw [simulate_gbm_zero, vanilla_grid_length, max_eq_left (by norm_num : 1 ≤ 119)]
  have hpay : Vanilla.simulate_monte_carlo 100 0 0 0 1 10 Z = List.replicate 10 1 := by
    rw [Vanilla.simulate_monte_carlo]
    have h1 : ∀ k ∈ List.range (Int.toNat 10),
        Vanilla.calculate_payoff 0
          (simulate_gbm 100 0 0 (Vanilla.generate_time_vector 1) (Z k))
          = (fun _ : ℕ => (1 : ℝ)) k := by
      intro k _
      rw [hpath k, vanilla_payoff_const]
    rw [List.map_congr_left h1, List.map_const']
    simp
  have hM : (perform_monte_carlo a (List.replicate 10 (1 : ℝ))).1 = List.replicate 10 1 := by
    rw [perform_fst]
    have h2 : ∀ i ∈ List.range (List.replicate 10 (1 : ℝ)).length,
        np_mean ((List.replicate 10 (1 : ℝ)).take (i + 1)) = (fun _ : ℕ => (1 : ℝ)) i := by
      intro i _
      rw [List.take_replicate, np_mean_replicate _ 1 (by omega)]
    rw [List.map_congr_left h2, List.map_const']
    simp
  have herr : (perform_monte_carlo a (List.replicate 10 (1 : ℝ))).2.2.getD 9 0
      - (perform_monte_carlo a (List.replicate 10 (1 : ℝ))).2.1.getD 9 0 = 0 := by
    rw [perform_ub, perform_lb,
      show (List.replicate 10 (1 : ℝ)).length = 10 from by simp,
      getD_map_range _ 10 9 (by norm_num), getD_map_range _ 10 9 (by norm_num),
      if_pos (by norm_num : 0 < 9), if_pos (by norm_num : 0 < 9),
      List.take_replicate, show min (9 + 1) 10 = 10 from rfl,
      np_std_replicate 10 1 (by norm_num)]
    ring
  exact ⟨hpath, hpay, by rw [hpay]; exact hM, by rw [hpay]; exact herr⟩

/-- The empty-group guard agrees with `listMin` (whose fold also yields 0 on
the empty list). -/
lemma minOrZero_eq (g : List ℝ) : Napoleon.minOrZero g = listMin g := by
  cases g with
  | nil => rfl
  | cons x xs => rfl

/-- Monthly returns of the constant trajectory of 24 ones are 23 zeros. -/
lemma monthly_returns_const :
    Napoleon.monthly_returns (List.replicate 24 (1 : ℝ)) = List.replicate 23 0 := by
  rw [Napoleon.monthly_returns]
  have h24 : (List.replicate 24 (1 : ℝ)).length - 1 = 23 := by simp
  rw [h24]
  have hz : ∀ j ∈ List.range 23,
      (List.replicate 24 (1 : ℝ)).getD (j + 1) 0 / (List.replicate 24 (1 : ℝ)).getD j 0 - 1
        = (fun _ : ℕ => (0 : ℝ)) j := by
    intro j hj
    rw [List.mem_range] at hj
    rw [getD_replicate 24 (j + 1) 1 (by omega), getD_replicate 24 j 1 (by omega)]
    norm_num
  rw [List.map_congr_left hz, List.map_const']
  simp

/-- Grouping 23 returns gives a full group of 12 and a group of 11. -/
lemma grouped_const :
    Napoleon.grouped (List.replicate 23 (0 : ℝ))
      = [List.replicate 12 0, List.replicate 11 0] := rfl

/-- The per-pass block sum of the 24-ones trajectory with coupon 1, floor 0:
both groups have minimum 0, so each contributes `max (1 + 0) 0 = 1`. -/
lemma napoleon_block_sum :
    ((Napoleon.grouped (Napoleon.monthly_returns (List.replicate 24 (1 : ℝ)))).map
      (fun g => max ((1 : ℝ) + Napoleon.minOrZero g) 0)).sum = 2 := by
  rw [monthly_returns_const, grouped_const, List.map_cons, List.map_cons, List.map_nil,
    minOrZero_eq, minOrZero_eq, listMin_replicate 12 0 (by norm_num),
    listMin_replicate 11 0 (by norm_num)]
  norm_num

/-- C1: the Napoleon payoff evaluator double counts.  On the constant
trajectory of 24 ones with `fixedCoupon = 1`, `floor = 0`, the blocks are a
group of 12 zero returns and a group of 11 zero returns, each contributing
`max(1 + 0, 0) = 1`; the claimed once-per-block total is 2, but the code's
outer `for i in range(int(len(S)/12))` loop adds the whole block sum
`int(24/12) = 2` times and returns 4. -/
theorem C1_code_double_counts :
    Napoleon.calculate_option_payoff 1 0 (List.replicate 24 (1 : ℝ)) = 4 ∧
    napoleonPayoffSpec 1 0 (List.replicate 24 (1 : ℝ)) = 2 := by
  constructor
  · rw [Napoleon.calculate_option_payoff]
    have hlen : (List.replicate 24 (1 : ℝ)).length / 12 = 2 := by simp
    have hr : List.range 2 = [0, 1] := rfl
    rw [hlen, hr, List.foldl_cons, List.foldl_cons, List.foldl_nil,
      napoleon_block_sum]
    norm_num
  · rw [napoleonPayoffSpec]
    exact napoleon_block_sum

/-- C5 counterexample: for maturity 1 the code's grid has 119 points while the
claimed grid (first 60 days plus 60 final days ending AT maturity) has 120; and
on the 119-point path of 61 ones followed by 58 twos with strike 0 the code's
payoff is 2 (it averages `S[61:]`, the last 58 observations) while the claimed
average of the LAST 60 observations gives 59/30. -/
theorem C5_counterexample :
    (Vanilla.generate_time_vector (1 : ℝ)).length = 119 ∧
    (vanillaGridSpec (1 : ℝ)).length = 120 ∧
    Vanilla.calculate_payoff 0 (List.replicate 61 (1 : ℝ) ++ List.replicate 58 2) = 2 ∧
    vanillaPayoffSpec 0 (List.replicate 61 (1 : ℝ) ++ List.replicate 58 2) = 59 / 30 := by
  refine ⟨vanilla_grid_length 1, ?_, ?_, ?_⟩
  · rw [vanillaGridSpec]
    simp
  · rw [Vanilla.calculate_payoff,
      List.drop_left' (by simp : (List.replicate 61 (1 : ℝ)).length = 61),
      List.take_append_of_le_length (by simp), List.take_replicate,
      show min 60 61 = 60 from rfl,
      np_mean_replicate 58 2 (by norm_num), np_mean_replicate 60 1 (by norm_num)]
    norm_num
  · have hlen : (List.replicate 61 (1 : ℝ) ++ List.replicate 58 2).length = 119 := by
      simp
    rw [vanillaPayoffSpec, hlen, show (119 : ℕ) - 60 = 59 from rfl,
      List.drop_append_of_le_length (by simp), List.drop_replicate,
      show (61 : ℕ) - 59 = 2 from rfl,
      List.take_append_of_le_length (by simp), List.take_replicate,
      show min 60 61 = 60 from rfl, np_mean_replicate 60 1 (by norm_num), np_mean]
    rw [List.sum_append, List.sum_replicate, List.sum_replicate, List.length_append,
      List.length_replicate, List.length_replicate]
    norm_num

/-- C5 amended: the Vanilla grid is the 60 daily offsets `i/252` followed by
only 59 daily offsets `maturity - 59/252 + i/252` (the grid stops one step
BEFORE maturity and has 119 points, not 120); the payoff is
`max(avgLate/avgEarly - strike, 0)` where `avgEarly` is the mean of the first
60 observations but `avgLate` is the mean of the last `len(S) - 61`
observations (58 of 119), not of the last 60. -/
theorem C5_amended (T strike : ℝ) (S : List ℝ) :
    Vanilla.generate_time_vector T
      = (List.range 60).map (fun i : ℕ => (i : ℝ) * (1 / 252))
        ++ (List.range 59).map (fun i : ℕ => (T - 59 / 252) + (i : ℝ) * (1 / 252)) ∧
    (Vanilla.generate_time_vector T).length = 119 ∧
    Vanilla.calculate_payoff strike S
      = max (np_mean (S.rtake (S.length - 61)) / np_mean (S.take 60) - strike) 0 := by
  refine ⟨?_, vanilla_grid_length T, ?_⟩
  · rw [Vanilla.generate_time_vector, np_arange, np_arange,
      show ((60 : ℝ) / 252 - 0) / (1 / 252) = ((60 : ℕ) : ℝ) by norm_num,
      show (T - (T - 59 / 252)) / (1 / 252) = ((59 : ℕ) : ℝ) by push_cast; ring_nf,
      Int.ceil_natCast, Int.ceil_natCast, Int.toNat_natCast, Int.toNat_natCast]
    congr 1
    apply List.map_congr_left
    intro i _
    ring
  · have h : S.rtake (S.length - 61) = S.drop 61 := by
      rw [List.rtake]
      rcases le_or_lt 61 S.length with h61 | h61
      · congr 1
        omega
      · rw [List.drop_eq_nil_of_le (by omega), List.drop_eq_nil_of_le (by omega)]
    rw [Vanilla.calculate_payoff, h]

/-- C7: the convergence estimator produces, at each 1-indexed prefix length
`i`, the running mean `sum(P[1..i])/i`, the standard deviation
`sqrt(sum((x - mean)^2)/i)` of the prefix (np.std, divisor i), bounds equal to
the mean at `i = 1`, and `mean ∓ a * std / sqrt(i-1)` for `i > 1`, where `a` is
the quantile value used directly. -/
theorem C7_convergence_closed_form (a : ℝ) (P : List ℝ) (i : ℕ)
    (h1 : 1 ≤ i) (h2 : i ≤ P.length) :
    (convergence_loop a P).1.getD (i - 1) 0 = (P.take i).sum / i ∧
    (convergence_loop a P).2.1.getD (i - 1) 0
      = Real.sqrt ((((P.take i).map (fun x => (x - (P.take i).sum / i) ^ 2)).sum) / i) ∧
    (i = 1 →
      (convergence_loop a P).2.2.1.getD (i - 1) 0 = (P.take i).sum / i ∧
      (convergence_loop a P).2.2.2.getD (i - 1) 0 = (P.take i).sum / i) ∧
    (2 ≤ i →
      (convergence_loop a P).2.2.1.getD (i - 1) 0
        = (P.take i).sum / i
          - a * Real.sqrt ((((P.take i).map (fun x => (x - (P.take i).sum / i) ^ 2)).sum) / i)
            / Real.sqrt ((i : ℝ) - 1) ∧
      (convergence_loop a P).2.2.2.getD (i - 1) 0
        = (P.take i).sum / i
          + a * Real.sqrt ((((P.take i).map (fun x => (x - (P.take i).sum / i) ^ 2)).sum) / i)
            / Real.sqrt ((i : ℝ) - 1)) := by
  have hi : i - 1 < P.length := by omega
  have htake : P.take (i - 1 + 1) = P.take i := by
    congr 1
    omega
  have hmean : np_mean (P.take i) = (P.take i).sum / i := by
    rw [np_mean, List.length_take, min_eq_left h2]
  have hstd : np_std (P.take i)
      = Real.sqrt ((((P.take i).map (fun x => (x - (P.take i).sum / i) ^ 2)).sum) / i) := by
    rw [np_std, List.length_take, min_eq_left h2, hmean]
  rw [conv_fst, conv_std, conv_lb, conv_ub, getD_map_range _ _ _ hi, getD_map_range _ _ _ hi,
    getD_map_range _ _ _ hi, getD_map_range _ _ _ hi, htake]
  refine ⟨hmean, hstd, ?_, ?_⟩
  · intro hone
    rw [if_neg (by omega : ¬ 0 < i - 1), if_neg (by omega : ¬ 0 < i - 1)]
    exact ⟨hmean, hmean⟩
  · intro htwo
    rw [if_pos (by omega : 0 < i - 1), if_pos (by omega : 0 < i - 1), hmean, hstd,
      Nat.cast_sub h1, Nat.cast_one]
    exact ⟨rfl, rfl⟩

/-- C7 witness: the closed form instantiated at `a = 3`, `P = [0, 1]`, `i = 2`,
with both hypotheses discharged. -/
theorem C7_witness :
    ((1 ≤ 2 ∧ 2 ≤ [(0 : ℝ), 1].length) ∧
      ((convergence_loop 3 [(0 : ℝ), 1]).1.getD (2 - 1) 0
          = ([(0 : ℝ), 1].take 2).sum / (2 : ℕ) ∧
        (convergence_loop 3 [(0 : ℝ), 1]).2.1.getD (2 - 1) 0
          = Real.sqrt (((([(0 : ℝ), 1].take 2).map
              (fun x => (x - ([(0 : ℝ), 1].take 2).sum / (2 : ℕ)) ^ 2)).sum) / (2 : ℕ)) ∧
        ((2 : ℕ) = 1 →
          (convergence_loop 3 [(0 : ℝ), 1]).2.2.1.getD (2 - 1) 0
            = ([(0 : ℝ), 1].take 2).sum / (2 : ℕ) ∧
          (convergence_loop 3 [(0 : ℝ), 1]).2.2.2.getD (2 - 1) 0
            = ([(0 : ℝ), 1].take 2).sum / (2 : ℕ)) ∧
        (2 ≤ 2 →
          (convergence_loop 3 [(0 : ℝ), 1]).2.2.1.getD (2 - 1) 0
            = ([(0 : ℝ), 1].take 2).sum / (2 : ℕ)
              - 3 * Real.sqrt (((([(0 : ℝ), 1].take 2).map
                  (fun x => (x - ([(0 : ℝ), 1].take 2).sum / (2 : ℕ)) ^ 2)).sum) / (2 : ℕ))
                / Real.sqrt (((2 : ℕ) : ℝ) - 1) ∧
          (convergence_loop 3 [(0 : ℝ), 1]).2.2.2.getD (2 - 1) 0
            = ([(0 : ℝ), 1].take 2).sum / (2 : ℕ)
              + 3 * Real.sqrt (((([(0 : ℝ), 1].take 2).map
                  (fun x => (x - ([(0 : ℝ), 1].take 2).sum / (2 : ℕ)) ^ 2)).sum) / (2 : ℕ))
                / Real.sqrt (((2 : ℕ) : ℝ) - 1)))) :=
  ⟨⟨by norm_num, by simp⟩, C7_convergence_closed_form 3 [(0 : ℝ), 1] 2 (by norm_num) (by simp)⟩

/-- C8 counterexample: at the quantile value `a = -1` (the standard-normal
quantile of a confidence level of about 0.159, inside (0,1)) and the payoff
sequence `[0, 1]`, the prefix-2 lower bound is `1/2 + 1/2 = 1`, strictly ABOVE
the prefix-2 mean `1/2`: the bracketing claimed for every confidence level in
(0,1) fails whenever the quantile is negative. -/
theorem C8_counterexample :
    (perform_monte_carlo (-1) [(0 : ℝ), 1]).1.getD 1 0
      < (perform_monte_carlo (-1) [(0 : ℝ), 1]).2.1.getD 1 0 := by
  have hm : np_mean [(0 : ℝ), 1] = 1 / 2 := by
    rw [np_mean]
    simp
  have hs : np_std [(0 : ℝ), 1] = 1 / 2 := by
    rw [np_std, hm,
      show (([(0 : ℝ), 1]).map (fun x => (x - 1 / 2) ^ 2)).sum / (([(0 : ℝ), 1]).length : ℝ)
        = ((1 / 2 : ℝ)) ^ 2 from by simp; norm_num,
      Real.sqrt_sq (by norm_num : (0 : ℝ) ≤ 1 / 2)]
  rw [perform_fst, perform_lb, show ([(0 : ℝ), 1]).length = 2 from rfl,
    getD_map_range _ 2 1 (by norm_num), getD_map_range _ 2 1 (by norm_num),
    if_pos (by norm_num : 0 < 1), show ([(0 : ℝ), 1]).take (1 + 1) = [(0 : ℝ), 1] from rfl,
    hm, hs, Nat.cast_one, Real.sqrt_one]
  norm_num

/-- C8 amended: the bracketing `lowerBound[i] ≤ mean[i] ≤ upperBound[i]` holds
for every prefix exactly when the quantile value `a = norm.ppf(confidenceLevel)`
is nonnegative, i.e. when the confidence level is at least 1/2; for levels
below 1/2 the quantile is negative and the bounds are inverted. -/
theorem C8_bounds_bracket_mean (a : ℝ) (P : List ℝ) (i : ℕ)
    (ha : 0 ≤ a) (h1 : 1 ≤ i) (h2 : i ≤ P.length) :
    (perform_monte_carlo a P).2.1.getD (i - 1) 0
      ≤ (perform_monte_carlo a P).1.getD (i - 1) 0 ∧
    (perform_monte_carlo a P).1.getD (i - 1) 0
      ≤ (perform_monte_carlo a P).2.2.getD (i - 1) 0 := by
  have hi : i - 1 < P.length := by omega
  rw [perform_fst, perform_lb, perform_ub, getD_map_range _ _ _ hi, getD_map_range _ _ _ hi,
    getD_map_range _ _ _ hi]
  by_cases h : 0 < i - 1
  · rw [if_pos h, if_pos h]
    have hx : 0 ≤ a * np_std (P.take (i - 1 + 1)) / Real.sqrt ((i - 1 : ℕ) : ℝ) :=
      div_nonneg (mul_nonneg ha (np_std_nonneg _)) (Real.sqrt_nonneg _)
    constructor <;> linarith
  · rw [if_neg h, if_neg h]
    exact ⟨le_rfl, le_rfl⟩

/-- C8 witness: the amended bracketing at `a = 1`, `P = [0, 1]`, `i = 2`. -/
theorem C8_bounds_witness :
    (((0 : ℝ) ≤ 1 ∧ 1 ≤ 2 ∧ 2 ≤ [(0 : ℝ), 1].length) ∧
      ((perform_monte_carlo 1 [(0 : ℝ), 1]).2.1.getD (2 - 1) 0
          ≤ (perform_monte_carlo 1 [(0 : ℝ), 1]).1.getD (2 - 1) 0 ∧
        (perform_monte_carlo 1 [(0 : ℝ), 1]).1.getD (2 - 1) 0
          ≤ (perform_monte_carlo 1 [(0 : ℝ), 1]).2.2.getD (2 - 1) 0)) :=
  ⟨⟨by norm_num, by norm_num, by simp⟩,
    C8_bounds_bracket_mean 1 [(0 : ℝ), 1] 2 (by norm_num) (by norm_num) (by simp)⟩

end Pricers
